import Mathlib

/-!
Verification of `GridForwardEulerDiffusionSolver3`
(src/src/jet/grid_forward_euler_diffusion_solver3.cpp) against its
natural-language specification.

The C++ is embedded shallowly: `double` becomes `ℚ` (all claims are exact
algebraic/ordering facts), `Array3<T>` / `ConstArrayView3<T>` become a size
plus an index function, scalar fields become samplers `Vector3D → ℚ`, and the
`parallelForEach*Index` loops become pointwise definitions of the written
arrays (each iteration is independent, as the code requires).

Helpers that live outside the provided sources (`isInsideSdf` from
level_set_utils, `laplacian3` from fdm_utils, the face-centered grid layout)
are modelled from the specification text; their doc comments say so.
-/

namespace FluidSpec

/-- `Vector3UZ`: a triple of sizes/indices (C++ `size_t` per axis). -/
structure Vector3UZ where
  x : Nat
  y : Nat
  z : Nat
deriving DecidableEq, Repr

/-- `Vector3D`: a triple of coordinates (`double` per axis, embedded as `ℚ`). -/
structure Vector3D where
  x : ℚ
  y : ℚ
  z : ℚ
deriving DecidableEq, Repr

/-- `Array3<T>` / `ConstArrayView3<T>`: a 3-D array, embedded as its size and
an index function.  Indices at or beyond `size` are not meaningful data; the
checked accessor `get?` below makes out-of-bounds access observable. -/
structure Array3 (α : Type) where
  size : Vector3UZ
  data : Nat → Nat → Nat → α

/-- Whether `(i, j, k)` is a valid index of size `s` (the index set every
`forEachIndex` / `parallelForEachDataPointIndex` loop ranges over). -/
def inBounds (s : Vector3UZ) (i j k : Nat) : Prop :=
  i < s.x ∧ j < s.y ∧ k < s.z

instance (s : Vector3UZ) (i j k : Nat) : Decidable (inBounds s i j k) := by
  unfold inBounds; infer_instance

/-- Bounds-checked element access: `some` of the element when the index is
within the array's size, `none` on an out-of-bounds access. -/
def Array3.get? {α : Type} (a : Array3 α) (i j k : Nat) : Option α :=
  if inBounds a.size i j k then some (a.data i j k) else none

/-- Bounds-checked element write: `none` on an out-of-bounds index. -/
def Array3.set? {α : Type} (a : Array3 α) (i j k : Nat) (v : α) :
    Option (Array3 α) :=
  if inBounds a.size i j k then
    some { a with data := fun i' j' k' =>
            if i' = i ∧ j' = j ∧ k' = k then v else a.data i' j' k' }
  else none

/-- `ScalarField3`: an abstract scalar sampler — the only operation the
diffusion solver uses is `sample(position)`. -/
def ScalarField3 : Type := Vector3D → ℚ

/-- Marker value `kFluid = 0` (C++ `static const char kFluid = 0`). -/
def kFluid : Nat := 0

/-- Marker value `kAir = 1`. -/
def kAir : Nat := 1

/-- Marker value `kBoundary = 2`. -/
def kBoundary : Nat := 2

/-- Modelled from the spec: `isInsideSdf` (level_set_utils, not under src/).
"sign convention is fixed (≤0 means inside)". -/
def isInsideSdf (phi : ℚ) : Bool :=
  decide (phi ≤ 0)

/-- `GridForwardEulerDiffusionSolver3::buildMarkers`: resize the marker array
to `size` and classify every index by sampling the two SDFs at that index's
position — Boundary if inside the boundary SDF, else Fluid if inside the
fluid SDF, else Air. -/
def buildMarkers (size : Vector3UZ) (pos : Nat → Nat → Nat → Vector3D)
    (boundarySdf fluidSdf : ScalarField3) : Array3 Nat :=
  { size := size
    data := fun i j k =>
      if isInsideSdf (boundarySdf (pos i j k)) then kBoundary
      else if isInsideSdf (fluidSdf (pos i j k)) then kFluid
      else kAir }

/-- The file-local templated `laplacian` of
grid_forward_euler_diffusion_solver3.cpp, instantiated at `T = double`:
marker-gated one-sided differences per axis, each axis divided by
`square(gridSpacing.axis)`. -/
def laplacian (data : Array3 ℚ) (marker : Array3 Nat)
    (gridSpacing : Vector3D) (i j k : Nat) : ℚ :=
  let center := data.data i j k
  let ds := data.size
  let dleft : ℚ :=
    if 0 < i ∧ marker.data (i - 1) j k = kFluid then
      center - data.data (i - 1) j k else 0
  let dright : ℚ :=
    if i + 1 < ds.x ∧ marker.data (i + 1) j k = kFluid then
      data.data (i + 1) j k - center else 0
  let ddown : ℚ :=
    if 0 < j ∧ marker.data i (j - 1) k = kFluid then
      center - data.data i (j - 1) k else 0
  let dup : ℚ :=
    if j + 1 < ds.y ∧ marker.data i (j + 1) k = kFluid then
      data.data i (j + 1) k - center else 0
  let dback : ℚ :=
    if 0 < k ∧ marker.data i j (k - 1) = kFluid then
      center - data.data i j (k - 1) else 0
  let dfront : ℚ :=
    if k + 1 < ds.z ∧ marker.data i j (k + 1) = kFluid then
      data.data i j (k + 1) - center else 0
  (dright - dleft) / (gridSpacing.x * gridSpacing.x) +
    (dup - ddown) / (gridSpacing.y * gridSpacing.y) +
    (dfront - dback) / (gridSpacing.z * gridSpacing.z)

/-- `ScalarGrid3` as the scalar-grid overload of `solve` uses it: a data
array (`dataView`, with `resolution == dataSize` as for cell-centered grids),
a grid spacing, and a data-point position function (`dataPosition`). -/
structure ScalarGrid3 where
  dataV : Array3 ℚ
  gridSpacing : Vector3D
  dataPosition : Nat → Nat → Nat → Vector3D

/-- `ScalarGrid3::resolution` (data-point index space of the grid). -/
def ScalarGrid3.resolution (g : ScalarGrid3) : Vector3UZ :=
  g.dataV.size

/-- The scalar-grid overload of `GridForwardEulerDiffusionSolver3::solve`.
It builds the markers at the source's resolution and data positions, then for
every data-point index writes the destination: forward-Euler diffusion update
at Fluid samples, a plain copy of the source elsewhere.  `destInit` is the
destination grid's data before the call (indices outside the iterated range
keep it); the returned pair is (destination data, marker buffer) — the only
two arrays the call writes. -/
def solveScalar (source : ScalarGrid3) (diffusionCoefficient : ℚ)
    (timeIntervalInSeconds : ℚ) (destInit : Array3 ℚ)
    (boundarySdf fluidSdf : ScalarField3) : Array3 ℚ × Array3 Nat :=
  let markers := buildMarkers source.resolution source.dataPosition
      boundarySdf fluidSdf
  let dest : Array3 ℚ :=
    { size := destInit.size
      data := fun i j k =>
        if inBounds source.dataV.size i j k then
          if markers.data i j k = kFluid then
            source.dataV.data i j k +
              diffusionCoefficient * timeIntervalInSeconds *
                laplacian source.dataV markers source.gridSpacing i j k
          else
            source.dataV.data i j k
        else destInit.data i j k }
  (dest, markers)

/-- Component-wise addition on `Vector3D` (math-type `operator+`). -/
def Vector3D.add (a b : Vector3D) : Vector3D :=
  ⟨a.x + b.x, a.y + b.y, a.z + b.z⟩

/-- Component-wise subtraction on `Vector3D` (math-type `operator-`). -/
def Vector3D.sub (a b : Vector3D) : Vector3D :=
  ⟨a.x - b.x, a.y - b.y, a.z - b.z⟩

/-- Division of a `Vector3D` by a scalar (math-type `operator/`). -/
def Vector3D.divQ (a : Vector3D) (s : ℚ) : Vector3D :=
  ⟨a.x / s, a.y / s, a.z / s⟩

/-- Scalar multiple of a `Vector3D` (math-type scalar `operator*`). -/
def Vector3D.smulQ (s : ℚ) (a : Vector3D) : Vector3D :=
  ⟨s * a.x, s * a.y, s * a.z⟩

/-- The file-local templated `laplacian`, instantiated at `T = Vector3D`
(the collocated vector-grid overload): identical gating, component-wise
vector arithmetic. -/
def laplacianV (data : Array3 Vector3D) (marker : Array3 Nat)
    (gridSpacing : Vector3D) (i j k : Nat) : Vector3D :=
  let center := data.data i j k
  let ds := data.size
  let dleft : Vector3D :=
    if 0 < i ∧ marker.data (i - 1) j k = kFluid then
      center.sub (data.data (i - 1) j k) else ⟨0, 0, 0⟩
  let dright : Vector3D :=
    if i + 1 < ds.x ∧ marker.data (i + 1) j k = kFluid then
      (data.data (i + 1) j k).sub center else ⟨0, 0, 0⟩
  let ddown : Vector3D :=
    if 0 < j ∧ marker.data i (j - 1) k = kFluid then
      center.sub (data.data i (j - 1) k) else ⟨0, 0, 0⟩
  let dup : Vector3D :=
    if j + 1 < ds.y ∧ marker.data i (j + 1) k = kFluid then
      (data.data i (j + 1) k).sub center else ⟨0, 0, 0⟩
  let dback : Vector3D :=
    if 0 < k ∧ marker.data i j (k - 1) = kFluid then
      center.sub (data.data i j (k - 1)) else ⟨0, 0, 0⟩
  let dfront : Vector3D :=
    if k + 1 < ds.z ∧ marker.data i j (k + 1) = kFluid then
      (data.data i j (k + 1)).sub center else ⟨0, 0, 0⟩
  (((dright.sub dleft).divQ (gridSpacing.x * gridSpacing.x)).add
      ((dup.sub ddown).divQ (gridSpacing.y * gridSpacing.y))).add
    ((dfront.sub dback).divQ (gridSpacing.z * gridSpacing.z))

/-- `CollocatedVectorGrid3` as the collocated overload of `solve` uses it. -/
structure CollocatedVectorGrid3 where
  dataV : Array3 Vector3D
  gridSpacing : Vector3D
  dataPosition : Nat → Nat → Nat → Vector3D

/-- `CollocatedVectorGrid3::resolution`. -/
def CollocatedVectorGrid3.resolution (g : CollocatedVectorGrid3) : Vector3UZ :=
  g.dataV.size

/-- The `CollocatedVectorGrid3` overload of
`GridForwardEulerDiffusionSolver3::solve`: same structure as the scalar
overload with the vector instantiation of `laplacian`. -/
def solveCollocated (source : CollocatedVectorGrid3)
    (diffusionCoefficient : ℚ) (timeIntervalInSeconds : ℚ)
    (destInit : Array3 Vector3D) (boundarySdf fluidSdf : ScalarField3) :
    Array3 Vector3D × Array3 Nat :=
  let markers := buildMarkers source.resolution source.dataPosition
      boundarySdf fluidSdf
  let dest : Array3 Vector3D :=
    { size := destInit.size
      data := fun i j k =>
        if inBounds source.dataV.size i j k then
          if markers.data i j k = kFluid then
            (source.dataV.data i j k).add
              (Vector3D.smulQ
                (diffusionCoefficient * timeIntervalInSeconds)
                (laplacianV source.dataV markers source.gridSpacing i j k))
          else
            source.dataV.data i j k
        else destInit.data i j k }
  (dest, markers)

/-- Modelled from the spec: `laplacian3` (fdm_utils, not under src/).  Its
call sites in the face-centered overload pass only the data view, the grid
spacing and the index — no marker information — so it is the "standard
second-order central difference per axis" whose "one-sided differences ...
contribute zero when a neighbor is absent (grid boundary)", with no marker
gating. -/
def laplacian3 (data : Array3 ℚ) (gridSpacing : Vector3D)
    (i j k : Nat) : ℚ :=
  let center := data.data i j k
  let ds := data.size
  let dleft : ℚ := if 0 < i then center - data.data (i - 1) j k else 0
  let dright : ℚ :=
    if i + 1 < ds.x then data.data (i + 1) j k - center else 0
  let ddown : ℚ := if 0 < j then center - data.data i (j - 1) k else 0
  let dup : ℚ :=
    if j + 1 < ds.y then data.data i (j + 1) k - center else 0
  let dback : ℚ := if 0 < k then center - data.data i j (k - 1) else 0
  let dfront : ℚ :=
    if k + 1 < ds.z then data.data i j (k + 1) - center else 0
  (dright - dleft) / (gridSpacing.x * gridSpacing.x) +
    (dup - ddown) / (gridSpacing.y * gridSpacing.y) +
    (dfront - dback) / (gridSpacing.z * gridSpacing.z)

/-- `FaceCenteredGrid3` as the face-centered overload of `solve` uses it:
three per-component data arrays plus origin and spacing.  The staggered
layout itself (sizes and face positions below) is modelled from the spec:
"velocity components stored at face centers offset by half a cell in their
own axis". -/
structure FaceCenteredGrid3 where
  resolution : Vector3UZ
  origin : Vector3D
  gridSpacing : Vector3D
  uData : Array3 ℚ
  vData : Array3 ℚ
  wData : Array3 ℚ

/-- Modelled from the spec: `FaceCenteredGrid3::uSize` — u faces have one
extra sample along their own (x) axis. -/
def uSize (g : FaceCenteredGrid3) : Vector3UZ :=
  ⟨g.resolution.x + 1, g.resolution.y, g.resolution.z⟩

/-- Modelled from the spec: `FaceCenteredGrid3::vSize`. -/
def vSize (g : FaceCenteredGrid3) : Vector3UZ :=
  ⟨g.resolution.x, g.resolution.y + 1, g.resolution.z⟩

/-- Modelled from the spec: `FaceCenteredGrid3::wSize`. -/
def wSize (g : FaceCenteredGrid3) : Vector3UZ :=
  ⟨g.resolution.x, g.resolution.y, g.resolution.z + 1⟩

/-- Modelled from the spec: `FaceCenteredGrid3::uPosition` — the u face
center at index `(i, j, k)`: on-lattice along x, offset half a cell along y
and z. -/
def uPosition (g : FaceCenteredGrid3) (i j k : Nat) : Vector3D :=
  ⟨g.origin.x + (i : ℚ) * g.gridSpacing.x,
    g.origin.y + ((j : ℚ) + 1/2) * g.gridSpacing.y,
    g.origin.z + ((k : ℚ) + 1/2) * g.gridSpacing.z⟩

/-- Modelled from the spec: `FaceCenteredGrid3::vPosition`. -/
def vPosition (g : FaceCenteredGrid3) (i j k : Nat) : Vector3D :=
  ⟨g.origin.x + ((i : ℚ) + 1/2) * g.gridSpacing.x,
    g.origin.y + (j : ℚ) * g.gridSpacing.y,
    g.origin.z + ((k : ℚ) + 1/2) * g.gridSpacing.z⟩

/-- Modelled from the spec: `FaceCenteredGrid3::wPosition`. -/
def wPosition (g : FaceCenteredGrid3) (i j k : Nat) : Vector3D :=
  ⟨g.origin.x + ((i : ℚ) + 1/2) * g.gridSpacing.x,
    g.origin.y + ((j : ℚ) + 1/2) * g.gridSpacing.y,
    g.origin.z + (k : ℚ) * g.gridSpacing.z⟩

/-- The u pass of the `FaceCenteredGrid3` overload of `solve`: over the u
index set, a face whose position is not inside the boundary SDF gets the
forward-Euler update with the marker-free `laplacian3`; every other face is
left untouched (it keeps the destination's prior value `uInit`).  The pass
also rebuilds the marker buffer at `uSize`/`uPosition`, which the update does
not consult. -/
def solveFaceU (source : FaceCenteredGrid3) (diffusionCoefficient : ℚ)
    (timeIntervalInSeconds : ℚ) (uInit : Array3 ℚ)
    (boundarySdf : ScalarField3) : Array3 ℚ :=
  { size := uInit.size
    data := fun i j k =>
      if inBounds (uSize source) i j k ∧
          isInsideSdf (boundarySdf (uPosition source i j k)) = false then
        source.uData.data i j k +
          diffusionCoefficient * timeIntervalInSeconds *
            laplacian3 source.uData source.gridSpacing i j k
      else uInit.data i j k }

/-- The v pass of the `FaceCenteredGrid3` overload of `solve` (same shape as
the u pass, over the v index set at the v face positions). -/
def solveFaceV (source : FaceCenteredGrid3) (diffusionCoefficient : ℚ)
    (timeIntervalInSeconds : ℚ) (vInit : Array3 ℚ)
    (boundarySdf : ScalarField3) : Array3 ℚ :=
  { size := vInit.size
    data := fun i j k =>
      if inBounds (vSize source) i j k ∧
          isInsideSdf (boundarySdf (vPosition source i j k)) = false then
        source.vData.data i j k +
          diffusionCoefficient * timeIntervalInSeconds *
            laplacian3 source.vData source.gridSpacing i j k
      else vInit.data i j k }

/-- The w pass of the `FaceCenteredGrid3` overload of `solve` as the source
writes it: it iterates `parallelForEachUIndex` — the u index set — while
reading the w source view, sampling `wPosition`, and writing the w
destination view.  (In this pointwise model an index outside the w arrays'
size just updates the index function beyond the meaningful region; the
bounds-checked run below makes the out-of-bounds accesses observable.) -/
def solveFaceW (source : FaceCenteredGrid3) (diffusionCoefficient : ℚ)
    (timeIntervalInSeconds : ℚ) (wInit : Array3 ℚ)
    (boundarySdf : ScalarField3) : Array3 ℚ :=
  { size := wInit.size
    data := fun i j k =>
      if inBounds (uSize source) i j k ∧
          isInsideSdf (boundarySdf (wPosition source i j k)) = false then
        source.wData.data i j k +
          diffusionCoefficient * timeIntervalInSeconds *
            laplacian3 source.wData source.gridSpacing i j k
      else wInit.data i j k }

/-- The whole `FaceCenteredGrid3` overload of `solve`: the three passes, and
the marker buffer as it is left after the call (last built at
`wSize`/`wPosition`; `fluidSdf` is used only to build markers in this
overload). -/
def solveFace (source : FaceCenteredGrid3) (diffusionCoefficient : ℚ)
    (timeIntervalInSeconds : ℚ) (uInit vInit wInit : Array3 ℚ)
    (boundarySdf fluidSdf : ScalarField3) :
    Array3 ℚ × Array3 ℚ × Array3 ℚ × Array3 Nat :=
  (solveFaceU source diffusionCoefficient timeIntervalInSeconds uInit
      boundarySdf,
    solveFaceV source diffusionCoefficient timeIntervalInSeconds vInit
      boundarySdf,
    solveFaceW source diffusionCoefficient timeIntervalInSeconds wInit
      boundarySdf,
    buildMarkers (wSize source) (wPosition source) boundarySdf fluidSdf)

/-- Row-major list of all indices of size `s` (the index space a
`parallelForEach*Index` loop visits). -/
def indexList (s : Vector3UZ) : List (Nat × Nat × Nat) :=
  (List.range s.z).flatMap fun k =>
    (List.range s.y).flatMap fun j =>
      (List.range s.x).map fun i => (i, j, k)

/-- The w pass re-run with every array element access bounds-checked: it
visits the u index set (as the source does), reads the w source view at each
visited index and writes the w destination view there, returning `none` as
soon as either access is out of the w arrays' bounds. -/
def solveFaceWChecked (source : FaceCenteredGrid3)
    (diffusionCoefficient : ℚ) (timeIntervalInSeconds : ℚ)
    (wInit : Array3 ℚ) (boundarySdf : ScalarField3) : Option (Array3 ℚ) :=
  (indexList (uSize source)).foldlM
    (fun acc idx =>
      let i := idx.1
      let j := idx.2.1
      let k := idx.2.2
      if isInsideSdf (boundarySdf (wPosition source i j k)) then
        some acc
      else
        (source.wData.get? i j k).bind fun center =>
          acc.set? i j k
            (center + diffusionCoefficient * timeIntervalInSeconds *
              laplacian3 source.wData source.gridSpacing i j k))
    wInit

/-- The memory the scalar overload can reach during a call: the source
grid's data, the destination grid's data, and the solver's private marker
buffer. -/
structure ScalarSolveMem where
  sourceData : Array3 ℚ
  destData : Array3 ℚ
  markers : Array3 Nat

/-- The scalar overload of `solve` as a transformer on `ScalarSolveMem`:
`buildMarkers` assigns the marker buffer, the parallel loop assigns the
destination data; no statement of the overload writes anywhere else. -/
def solveScalarMem (gridSpacing : Vector3D)
    (pos : Nat → Nat → Nat → Vector3D) (diffusionCoefficient : ℚ)
    (timeIntervalInSeconds : ℚ) (boundarySdf fluidSdf : ScalarField3)
    (m : ScalarSolveMem) : ScalarSolveMem :=
  let r := solveScalar ⟨m.sourceData, gridSpacing, pos⟩ diffusionCoefficient
    timeIntervalInSeconds m.destData boundarySdf fluidSdf
  { m with destData := r.1, markers := r.2 }

/-- The memory the collocated overload can reach during a call. -/
structure CollocatedSolveMem where
  sourceData : Array3 Vector3D
  destData : Array3 Vector3D
  markers : Array3 Nat

/-- The collocated overload of `solve` as a transformer on
`CollocatedSolveMem`. -/
def solveCollocatedMem (gridSpacing : Vector3D)
    (pos : Nat → Nat → Nat → Vector3D) (diffusionCoefficient : ℚ)
    (timeIntervalInSeconds : ℚ) (boundarySdf fluidSdf : ScalarField3)
    (m : CollocatedSolveMem) : CollocatedSolveMem :=
  let r := solveCollocated ⟨m.sourceData, gridSpacing, pos⟩
    diffusionCoefficient timeIntervalInSeconds m.destData boundarySdf fluidSdf
  { m with destData := r.1, markers := r.2 }

/-- The memory the face-centered overload can reach during a call: the three
source views, the three destination views, and the marker buffer. -/
structure FaceSolveMem where
  srcU : Array3 ℚ
  srcV : Array3 ℚ
  srcW : Array3 ℚ
  dstU : Array3 ℚ
  dstV : Array3 ℚ
  dstW : Array3 ℚ
  markers : Array3 Nat

/-- The face-centered overload of `solve` as a transformer on
`FaceSolveMem`: its three loops assign the destination views, its three
`buildMarkers` calls assign the marker buffer. -/
def solveFaceMem (resolution : Vector3UZ) (origin gridSpacing : Vector3D)
    (diffusionCoefficient : ℚ) (timeIntervalInSeconds : ℚ)
    (boundarySdf fluidSdf : ScalarField3) (m : FaceSolveMem) : FaceSolveMem :=
  let g : FaceCenteredGrid3 :=
    ⟨resolution, origin, gridSpacing, m.srcU, m.srcV, m.srcW⟩
  let r := solveFace g diffusionCoefficient timeIntervalInSeconds
    m.dstU m.dstV m.dstW boundarySdf fluidSdf
  { m with dstU := r.1, dstV := r.2.1, dstW := r.2.2.1, markers := r.2.2.2 }

/-!
## Spec-side definitions and helper lemmas
-/

/-- The discrete Laplacian exactly as the specification words it: per axis,
the neighbor-plus term `neighbor − center` and the neighbor-minus term
`neighbor − center` each contribute only when that neighbor index is inside
the grid and marked Fluid (zero otherwise), and each axis total is divided by
the square of that axis's grid spacing.  This is the statement-side
definition C1 compares the code's `laplacian` against. -/
def specLaplacian (data : Array3 ℚ) (marker : Array3 Nat)
    (gridSpacing : Vector3D) (i j k : Nat) : ℚ :=
  ((if i + 1 < data.size.x ∧ marker.data (i + 1) j k = kFluid then
      data.data (i + 1) j k - data.data i j k else 0) +
    (if 0 < i ∧ marker.data (i - 1) j k = kFluid then
      data.data (i - 1) j k - data.data i j k else 0)) /
      (gridSpacing.x * gridSpacing.x) +
  ((if j + 1 < data.size.y ∧ marker.data i (j + 1) k = kFluid then
      data.data i (j + 1) k - data.data i j k else 0) +
    (if 0 < j ∧ marker.data i (j - 1) k = kFluid then
      data.data i (j - 1) k - data.data i j k else 0)) /
      (gridSpacing.y * gridSpacing.y) +
  ((if k + 1 < data.size.z ∧ marker.data i j (k + 1) = kFluid then
      data.data i j (k + 1) - data.data i j k else 0) +
    (if 0 < k ∧ marker.data i j (k - 1) = kFluid then
      data.data i j (k - 1) - data.data i j k else 0)) /
      (gridSpacing.z * gridSpacing.z)

/-- One axis of the Laplacian rewritten from difference-of-one-sided
differences to the sum of two gated neighbor-minus-center terms. -/
lemma axis_flip (P Q : Prop) [Decidable P] [Decidable Q] (np nm c h : ℚ) :
    ((if P then np - c else 0) - (if Q then c - nm else 0)) / h =
      ((if P then np - c else 0) + (if Q then nm - c else 0)) / h := by
  split_ifs <;> ring

/-- The code's `laplacian` (difference-of-one-sided-differences form) agrees
with the specification's per-axis central-difference form everywhere. -/
lemma laplacian_eq_specLaplacian (data : Array3 ℚ) (m : Array3 Nat)
    (h : Vector3D) (i j k : Nat) :
    laplacian data m h i j k = specLaplacian data m h i j k := by
  show ((if i + 1 < data.size.x ∧ m.data (i + 1) j k = kFluid then
      data.data (i + 1) j k - data.data i j k else 0) -
    (if 0 < i ∧ m.data (i - 1) j k = kFluid then
      data.data i j k - data.data (i - 1) j k else 0)) /
      (h.x * h.x) +
    ((if j + 1 < data.size.y ∧ m.data i (j + 1) k = kFluid then
      data.data i (j + 1) k - data.data i j k else 0) -
    (if 0 < j ∧ m.data i (j - 1) k = kFluid then
      data.data i j k - data.data i (j - 1) k else 0)) /
      (h.y * h.y) +
    ((if k + 1 < data.size.z ∧ m.data i j (k + 1) = kFluid then
      data.data i j (k + 1) - data.data i j k else 0) -
    (if 0 < k ∧ m.data i j (k - 1) = kFluid then
      data.data i j k - data.data i j (k - 1) else 0)) /
      (h.z * h.z) = _
  rw [axis_flip, axis_flip, axis_flip]
  rfl

/-- An SDF sample that is everywhere positive (nothing inside). -/
def sdfOutside : ScalarField3 := fun _ => 1

/-- An SDF sample that is everywhere negative (everything inside). -/
def sdfInside : ScalarField3 := fun _ => -1

/-- 2×1×1 scalar example grid: values 3 and 5, unit spacing. -/
def exGridA : ScalarGrid3 :=
  ⟨⟨⟨2, 1, 1⟩, fun i _ _ => if i = 0 then 3 else 5⟩, ⟨1, 1, 1⟩,
    fun _ _ _ => ⟨0, 0, 0⟩⟩

/-- 2×1×1 zero array (an example destination buffer). -/
def exDestA : Array3 ℚ := ⟨⟨2, 1, 1⟩, fun _ _ _ => 0⟩

/-!
## The claims
-/

/-- C1: in the scalar-grid overload of `solve`, every data-point index whose
marker is Fluid receives `source + diffusionCoefficient · dt · L`, where `L`
is the per-axis second-order central-difference Laplacian in which an axis
term contributes zero whenever the neighbor lies outside the grid or is not
marked Fluid, each axis divided by the square of that axis's spacing. -/
theorem scalar_fluid_update_matches_spec (source : ScalarGrid3)
    (c dt : ℚ) (destInit : Array3 ℚ) (b f : ScalarField3) (i j k : Nat)
    (hin : inBounds source.dataV.size i j k)
    (hm : (buildMarkers source.resolution source.dataPosition b f).data i j k
      = kFluid) :
    (solveScalar source c dt destInit b f).1.data i j k =
      source.dataV.data i j k +
        c * dt * specLaplacian source.dataV
          (buildMarkers source.resolution source.dataPosition b f)
          source.gridSpacing i j k := by
  simp only [solveScalar]
  rw [if_pos hin, if_pos hm, laplacian_eq_specLaplacian]

/-- Witness for C1: the concrete 2×1×1 all-Fluid grid. -/
theorem scalar_fluid_update_matches_spec_witness :
    inBounds exGridA.dataV.size 0 0 0 ∧
    (buildMarkers exGridA.resolution exGridA.dataPosition sdfOutside
        sdfInside).data 0 0 0 = kFluid ∧
    (solveScalar exGridA 1 1 exDestA sdfOutside sdfInside).1.data 0 0 0 =
      exGridA.dataV.data 0 0 0 +
        1 * 1 * specLaplacian exGridA.dataV
          (buildMarkers exGridA.resolution exGridA.dataPosition sdfOutside
            sdfInside)
          exGridA.gridSpacing 0 0 0 :=
  ⟨by decide, by decide,
    scalar_fluid_update_matches_spec exGridA 1 1 exDestA sdfOutside sdfInside
      0 0 0 (by decide) (by decide)⟩

/-- C2: `buildMarkers` classifies each index by SDF sign at that index's
position — Boundary when the boundary SDF is non-positive there, else Fluid
when the fluid SDF is non-positive there, else Air; Boundary takes precedence
and a sample exactly on a zero level set counts as inside. -/
theorem buildMarkers_classification (size : Vector3UZ)
    (pos : Nat → Nat → Nat → Vector3D) (b f : ScalarField3) (i j k : Nat)
    (_hin : inBounds size i j k) :
    (buildMarkers size pos b f).data i j k =
      if b (pos i j k) ≤ 0 then kBoundary
      else if f (pos i j k) ≤ 0 then kFluid
      else kAir := by
  unfold buildMarkers isInsideSdf
  simp only [decide_eq_true_eq]

/-- Witness for C2: a 1×1×1 grid whose sample sits exactly on the boundary
SDF's zero level set is classified Boundary. -/
theorem buildMarkers_classification_witness :
    inBounds (⟨1, 1, 1⟩ : Vector3UZ) 0 0 0 ∧
    (buildMarkers ⟨1, 1, 1⟩ (fun _ _ _ => ⟨0, 0, 0⟩) (fun _ => 0)
        sdfInside).data 0 0 0 =
      if (0 : ℚ) ≤ 0 then kBoundary
      else if sdfInside ⟨0, 0, 0⟩ ≤ 0 then kFluid
      else kAir :=
  ⟨by decide,
    buildMarkers_classification ⟨1, 1, 1⟩ (fun _ _ _ => ⟨0, 0, 0⟩)
      (fun _ => 0) sdfInside 0 0 0 (by decide)⟩

/-- A marker array with every entry Fluid. -/
def allFluid (s : Vector3UZ) : Array3 Nat := ⟨s, fun _ _ _ => kFluid⟩

/-- `laplacian3` is the file's marker-gated `laplacian` evaluated with every
marker Fluid: the marker gates all hold and only the bounds gates remain. -/
lemma laplacian3_eq_laplacian_allFluid (data : Array3 ℚ) (h : Vector3D)
    (i j k : Nat) :
    laplacian3 data h i j k = laplacian data (allFluid data.size) h i j k := by
  simp only [laplacian3, laplacian, allFluid, and_true]

/-- Face-centered example grid at resolution 2×1×1: u values 0, 0, 4 along
x, everything else 0, unit spacing, origin 0. -/
def exFaceB : FaceCenteredGrid3 :=
  ⟨⟨2, 1, 1⟩, ⟨0, 0, 0⟩, ⟨1, 1, 1⟩,
    ⟨⟨3, 1, 1⟩, fun i _ _ => if i = 2 then 4 else 0⟩,
    ⟨⟨2, 2, 1⟩, fun _ _ _ => 0⟩,
    ⟨⟨2, 1, 2⟩, fun _ _ _ => 0⟩⟩

/-- Zero u-destination buffer for `exFaceB`. -/
def exFaceBU : Array3 ℚ := ⟨⟨3, 1, 1⟩, fun _ _ _ => 0⟩

/-- Zero v-destination buffer for `exFaceB`. -/
def exFaceBV : Array3 ℚ := ⟨⟨2, 2, 1⟩, fun _ _ _ => 0⟩

/-- Zero w-destination buffer for `exFaceB`. -/
def exFaceBW : Array3 ℚ := ⟨⟨2, 1, 2⟩, fun _ _ _ => 0⟩

/-- A fluid SDF that is inside (negative) exactly on the plane `x = 1`. -/
def sdfFluidAtX1 : ScalarField3 := fun p => if p.x = 1 then -1 else 1

/-- Counterexample to C3 as stated: with fluid only at the `x = 1` plane, the
u face (1,0,0) of `exFaceB` is marked Fluid, both its x-neighbors are Air,
and it is not inside the boundary SDF — so under the claim only
Fluid-to-Fluid differences would accumulate and the face would keep its
value.  The code's update instead uses the marker-free `laplacian3` and the
written value differs from the marker-gated one. -/
theorem face_marker_gating_counterexample :
    (buildMarkers (uSize exFaceB) (uPosition exFaceB) sdfOutside
        sdfFluidAtX1).data 1 0 0 = kFluid ∧
    isInsideSdf (sdfOutside (uPosition exFaceB 1 0 0)) = false ∧
    (solveFace exFaceB 1 1 exFaceBU exFaceBV exFaceBW sdfOutside
        sdfFluidAtX1).1.data 1 0 0 ≠
      exFaceB.uData.data 1 0 0 +
        1 * 1 * laplacian exFaceB.uData
          (buildMarkers (uSize exFaceB) (uPosition exFaceB) sdfOutside
            sdfFluidAtX1)
          exFaceB.gridSpacing 1 0 0 := by
  refine ⟨?_, by decide, ?_⟩
  · norm_num [buildMarkers, isInsideSdf, uSize, uPosition, exFaceB,
      sdfOutside, sdfFluidAtX1, kFluid, kBoundary, kAir]
  · norm_num [solveFace, solveFaceU, laplacian3, laplacian, buildMarkers,
      inBounds, isInsideSdf, uSize, uPosition, exFaceB, exFaceBU, sdfOutside,
      sdfFluidAtX1, kFluid, kBoundary, kAir]

/-- C3 (amended): in the face-centered overload diffusion is applied
independently per component over that component's own face index set, but
the per-component markers, although rebuilt, are not consulted: every u or v
face not inside the boundary SDF is updated with the marker-free
`laplacian3`, i.e. the file's `laplacian` under an all-Fluid marker array (so
differences accumulate with every in-grid neighbor regardless of marker);
faces inside the boundary SDF are left untouched.  (The w pass iterates the
u index set; see the bounds-defect theorem.) -/
theorem face_solve_componentwise (g : FaceCenteredGrid3) (c dt : ℚ)
    (uInit vInit wInit : Array3 ℚ) (b f : ScalarField3) (i j k : Nat) :
    (inBounds (uSize g) i j k →
      isInsideSdf (b (uPosition g i j k)) = false →
      (solveFace g c dt uInit vInit wInit b f).1.data i j k =
        g.uData.data i j k + c * dt *
          laplacian g.uData (allFluid g.uData.size) g.gridSpacing i j k) ∧
    (inBounds (vSize g) i j k →
      isInsideSdf (b (vPosition g i j k)) = false →
      (solveFace g c dt uInit vInit wInit b f).2.1.data i j k =
        g.vData.data i j k + c * dt *
          laplacian g.vData (allFluid g.vData.size) g.gridSpacing i j k) ∧
    (isInsideSdf (b (uPosition g i j k)) = true →
      (solveFace g c dt uInit vInit wInit b f).1.data i j k =
        uInit.data i j k) ∧
    (isInsideSdf (b (vPosition g i j k)) = true →
      (solveFace g c dt uInit vInit wInit b f).2.1.data i j k =
        vInit.data i j k) := by
  refine ⟨?_, ?_, ?_, ?_⟩
  · intro hin hsdf
    simp only [solveFace, solveFaceU]
    rw [if_pos ⟨hin, hsdf⟩, laplacian3_eq_laplacian_allFluid]
  · intro hin hsdf
    simp only [solveFace, solveFaceV]
    rw [if_pos ⟨hin, hsdf⟩, laplacian3_eq_laplacian_allFluid]
  · intro hsdf
    simp only [solveFace, solveFaceU]
    rw [if_neg]
    intro hc
    rw [hsdf] at hc
    exact absurd hc.2 (by decide)
  · intro hsdf
    simp only [solveFace, solveFaceV]
    rw [if_neg]
    intro hc
    rw [hsdf] at hc
    exact absurd hc.2 (by decide)

/-- Witness for C3 (amended): the u update at face (1,0,0) of `exFaceB` with
nothing inside the boundary SDF, and the untouched case with everything
inside it. -/
theorem face_solve_componentwise_witness :
    (inBounds (uSize exFaceB) 1 0 0 ∧
      isInsideSdf (sdfOutside (uPosition exFaceB 1 0 0)) = false ∧
      (solveFace exFaceB 1 1 exFaceBU exFaceBV exFaceBW sdfOutside
          sdfFluidAtX1).1.data 1 0 0 =
        exFaceB.uData.data 1 0 0 + 1 * 1 *
          laplacian exFaceB.uData (allFluid exFaceB.uData.size)
            exFaceB.gridSpacing 1 0 0) ∧
    (isInsideSdf (sdfInside (uPosition exFaceB 1 0 0)) = true ∧
      (solveFace exFaceB 1 1 exFaceBU exFaceBV exFaceBW sdfInside
          sdfFluidAtX1).1.data 1 0 0 = exFaceBU.data 1 0 0) :=
  ⟨⟨by decide, by decide,
      (face_solve_componentwise exFaceB 1 1 exFaceBU exFaceBV exFaceBW
          sdfOutside sdfFluidAtX1 1 0 0).1 (by decide) (by decide)⟩,
    ⟨by decide,
      (face_solve_componentwise exFaceB 1 1 exFaceBU exFaceBV exFaceBW
          sdfInside sdfFluidAtX1 1 0 0).2.2.1 (by decide)⟩⟩

/-- Counterexample to C4 as stated: in the face-centered overload the u face
(1,0,0) of `exFaceB` is marked Air (both SDFs positive everywhere), yet the
solve changes its value from 0 to 4 — diffusion does act on an Air sample
there. -/
theorem air_face_changed_counterexample :
    (buildMarkers (uSize exFaceB) (uPosition exFaceB) sdfOutside
        sdfOutside).data 1 0 0 = kAir ∧
    exFaceB.uData.data 1 0 0 = 0 ∧
    (solveFace exFaceB 1 1 exFaceBU exFaceBV exFaceBW sdfOutside
        sdfOutside).1.data 1 0 0 = 4 := by
  refine ⟨by decide, by decide, ?_⟩
  norm_num [solveFace, solveFaceU, laplacian3, inBounds, isInsideSdf, uSize,
    uPosition, exFaceB, exFaceBU, sdfOutside]

/-- C4 (amended): in the scalar-grid and collocated-vector overloads, any
sample marked Air or Boundary is written back unchanged — `dest = source` at
that index.  (The face-centered overload does not obey this: it ignores its
markers, as the counterexample shows.) -/
theorem nonfluid_samples_unchanged (i j k : Nat) :
    (∀ (sg : ScalarGrid3) (c dt : ℚ) (dInit : Array3 ℚ)
        (b f : ScalarField3),
      inBounds sg.dataV.size i j k →
      ((buildMarkers sg.resolution sg.dataPosition b f).data i j k = kAir ∨
        (buildMarkers sg.resolution sg.dataPosition b f).data i j k
          = kBoundary) →
      (solveScalar sg c dt dInit b f).1.data i j k = sg.dataV.data i j k) ∧
    (∀ (cg : CollocatedVectorGrid3) (c dt : ℚ) (dInit : Array3 Vector3D)
        (b f : ScalarField3),
      inBounds cg.dataV.size i j k →
      ((buildMarkers cg.resolution cg.dataPosition b f).data i j k = kAir ∨
        (buildMarkers cg.resolution cg.dataPosition b f).data i j k
          = kBoundary) →
      (solveCollocated cg c dt dInit b f).1.data i j k
        = cg.dataV.data i j k) := by
  constructor
  · intro sg c dt dInit b f hin hm
    have hne : (buildMarkers sg.resolution sg.dataPosition b f).data i j k
        ≠ kFluid := by
      rcases hm with h | h <;> rw [h] <;> decide
    simp only [solveScalar]
    rw [if_pos hin, if_neg hne]
  · intro cg c dt dInit b f hin hm
    have hne : (buildMarkers cg.resolution cg.dataPosition b f).data i j k
        ≠ kFluid := by
      rcases hm with h | h <;> rw [h] <;> decide
    simp only [solveCollocated]
    rw [if_pos hin, if_neg hne]

/-- Witness for C4 (amended): with both SDFs positive everywhere, `exGridA`'s
sample (0,0,0) is Air and the scalar solve copies it unchanged. -/
theorem nonfluid_samples_unchanged_witness :
    inBounds exGridA.dataV.size 0 0 0 ∧
    (buildMarkers exGridA.resolution exGridA.dataPosition sdfOutside
        sdfOutside).data 0 0 0 = kAir ∧
    (solveScalar exGridA 1 1 exDestA sdfOutside sdfOutside).1.data 0 0 0 =
      exGridA.dataV.data 0 0 0 :=
  ⟨by decide, by decide,
    (nonfluid_samples_unchanged 0 0 0).1 exGridA 1 1 exDestA sdfOutside
      sdfOutside (by decide) (Or.inl (by decide))⟩

/-- Counterexample to C5 as stated: with `diffusionCoefficient = -1 < 0` and
`timeIntervalInSeconds = -2 ≤ 0` — both configuration errors — the scalar
overload does not fail fast: it runs and writes the destination sample,
changing it from 0 to a computed value. -/
theorem no_fail_fast_counterexample :
    (-1 : ℚ) < 0 ∧ (-2 : ℚ) ≤ 0 ∧
    exDestA.data 0 0 0 = 0 ∧
    (solveScalar exGridA (-1) (-2) exDestA sdfOutside sdfInside).1.data 0 0 0
      ≠ exDestA.data 0 0 0 := by
  refine ⟨by norm_num, by norm_num, by decide, ?_⟩
  norm_num [solveScalar, laplacian, buildMarkers, inBounds, isInsideSdf,
    exGridA, exDestA, sdfOutside, sdfInside, kFluid, kBoundary, kAir]

/-- C5 (amended): the scalar overload performs no configuration validation —
for every diffusion coefficient (negative included), every time interval
(non-positive included), and every destination buffer and sizing, the call
proceeds: each index of the source's data index space is written with the
unguarded update (Fluid formula or source copy), gated by nothing but the
marker. -/
theorem solve_no_validation (sg : ScalarGrid3) (c dt : ℚ)
    (dInit : Array3 ℚ) (b f : ScalarField3) (i j k : Nat)
    (hin : inBounds sg.dataV.size i j k) :
    (solveScalar sg c dt dInit b f).1.data i j k =
      (if (buildMarkers sg.resolution sg.dataPosition b f).data i j k
          = kFluid then
        sg.dataV.data i j k + c * dt *
          laplacian sg.dataV
            (buildMarkers sg.resolution sg.dataPosition b f)
            sg.gridSpacing i j k
      else sg.dataV.data i j k) := by
  simp only [solveScalar]
  rw [if_pos hin]

/-- Witness for C5 (amended): the write goes through at an erroneous
configuration (negative coefficient, negative time interval). -/
theorem solve_no_validation_witness :
    inBounds exGridA.dataV.size 0 0 0 ∧
    (solveScalar exGridA (-1) (-2) exDestA sdfOutside sdfInside).1.data 0 0 0
      = (if (buildMarkers exGridA.resolution exGridA.dataPosition sdfOutside
            sdfInside).data 0 0 0 = kFluid then
          exGridA.dataV.data 0 0 0 + (-1) * (-2) *
            laplacian exGridA.dataV
              (buildMarkers exGridA.resolution exGridA.dataPosition
                sdfOutside sdfInside)
              exGridA.gridSpacing 0 0 0
        else exGridA.dataV.data 0 0 0) :=
  ⟨by decide,
    solve_no_validation exGridA (-1) (-2) exDestA sdfOutside sdfInside 0 0 0
      (by decide)⟩

/-- Sum of a sampled quantity over all indices of size `s`. -/
def sumOver (s : Vector3UZ) (g : Nat → Nat → Nat → ℚ) : ℚ :=
  ∑ i ∈ Finset.range s.x, ∑ j ∈ Finset.range s.y,
    ∑ k ∈ Finset.range s.z, g i j k

lemma sumOver_add (s : Vector3UZ) (f g : Nat → Nat → Nat → ℚ) :
    sumOver s (fun i j k => f i j k + g i j k) = sumOver s f + sumOver s g := by
  simp [sumOver, Finset.sum_add_distrib]

lemma sumOver_smul (s : Vector3UZ) (c : ℚ) (f : Nat → Nat → Nat → ℚ) :
    sumOver s (fun i j k => c * f i j k) = c * sumOver s f := by
  simp [sumOver, Finset.mul_sum]

/-- The sum of the gated forward differences telescopes to the sum over the
interior of plain forward differences. -/
lemma sum_gated_dright (N : Nat) (f : Nat → ℚ) :
    ∑ i ∈ Finset.range N, (if i + 1 < N then f (i + 1) - f i else 0) =
      ∑ i ∈ Finset.range (N - 1), (f (i + 1) - f i) := by
  have h1 : ∑ i ∈ Finset.range (N - 1),
      (if i + 1 < N then f (i + 1) - f i else 0) =
      ∑ i ∈ Finset.range N, (if i + 1 < N then f (i + 1) - f i else 0) :=
    Finset.sum_subset (Finset.range_subset.2 (Nat.sub_le N 1))
      (fun i _ hni => if_neg (by
        simp only [Finset.mem_range, not_lt] at hni
        omega))
  rw [← h1]
  exact Finset.sum_congr rfl fun i hi => if_pos (by
    simp only [Finset.mem_range] at hi
    omega)

/-- The sum of the gated backward differences telescopes to the same
interior sum of forward differences. -/
lemma sum_gated_dleft (N : Nat) (f : Nat → ℚ) :
    ∑ i ∈ Finset.range N, (if 0 < i then f i - f (i - 1) else 0) =
      ∑ i ∈ Finset.range (N - 1), (f (i + 1) - f i) := by
  cases N with
  | zero => simp
  | succ m =>
      rw [Finset.sum_range_succ']
      simp

/-- Along one axis with zero-flux gating at both ends, the second differences
sum to zero. -/
lemma sum_axis_cancel (N : Nat) (f : Nat → ℚ) :
    ∑ i ∈ Finset.range N, ((if i + 1 < N then f (i + 1) - f i else 0) -
      (if 0 < i then f i - f (i - 1) else 0)) = 0 := by
  rw [Finset.sum_sub_distrib, sum_gated_dright, sum_gated_dleft, sub_self]

/-- The same, divided by a (squared spacing) constant. -/
lemma sum_axis_cancel_div (N : Nat) (f : Nat → ℚ) (c : ℚ) :
    ∑ i ∈ Finset.range N, ((if i + 1 < N then f (i + 1) - f i else 0) -
      (if 0 < i then f i - f (i - 1) else 0)) / c = 0 := by
  rw [← Finset.sum_div, sum_axis_cancel, zero_div]

/-- Every marker is Fluid when the boundary SDF is positive and the fluid SDF
non-positive at every in-bounds sample position. -/
lemma buildMarkers_all_fluid (size : Vector3UZ)
    (pos : Nat → Nat → Nat → Vector3D) (b f : ScalarField3)
    (hb : ∀ i j k, inBounds size i j k → isInsideSdf (b (pos i j k)) = false)
    (hf : ∀ i j k, inBounds size i j k → isInsideSdf (f (pos i j k)) = true)
    (i j k : Nat) (hin : inBounds size i j k) :
    (buildMarkers size pos b f).data i j k = kFluid := by
  simp [buildMarkers, hb i j k hin, hf i j k hin]

/-- When every in-bounds marker is Fluid, the marker gates of `laplacian`
reduce to the bounds gates alone. -/
lemma laplacian_fluid_everywhere (data : Array3 ℚ) (m : Array3 Nat)
    (h : Vector3D) (i j k : Nat) (hin : inBounds data.size i j k)
    (hm : ∀ a b c, inBounds data.size a b c → m.data a b c = kFluid) :
    laplacian data m h i j k =
      ((if i + 1 < data.size.x then data.data (i + 1) j k - data.data i j k
          else 0) -
        (if 0 < i then data.data i j k - data.data (i - 1) j k else 0)) /
        (h.x * h.x) +
      ((if j + 1 < data.size.y then data.data i (j + 1) k - data.data i j k
          else 0) -
        (if 0 < j then data.data i j k - data.data i (j - 1) k else 0)) /
        (h.y * h.y) +
      ((if k + 1 < data.size.z then data.data i j (k + 1) - data.data i j k
          else 0) -
        (if 0 < k then data.data i j k - data.data i j (k - 1) else 0)) /
        (h.z * h.z) := by
  obtain ⟨hx, hy, hz⟩ := hin
  have g1 : (0 < i ∧ m.data (i - 1) j k = kFluid) ↔ 0 < i :=
    ⟨And.left, fun hp => ⟨hp, hm _ _ _ ⟨by omega, hy, hz⟩⟩⟩
  have g2 : (i + 1 < data.size.x ∧ m.data (i + 1) j k = kFluid) ↔
      i + 1 < data.size.x :=
    ⟨And.left, fun hp => ⟨hp, hm _ _ _ ⟨hp, hy, hz⟩⟩⟩
  have g3 : (0 < j ∧ m.data i (j - 1) k = kFluid) ↔ 0 < j :=
    ⟨And.left, fun hp => ⟨hp, hm _ _ _ ⟨hx, by omega, hz⟩⟩⟩
  have g4 : (j + 1 < data.size.y ∧ m.data i (j + 1) k = kFluid) ↔
      j + 1 < data.size.y :=
    ⟨And.left, fun hp => ⟨hp, hm _ _ _ ⟨hx, hp, hz⟩⟩⟩
  have g5 : (0 < k ∧ m.data i j (k - 1) = kFluid) ↔ 0 < k :=
    ⟨And.left, fun hp => ⟨hp, hm _ _ _ ⟨hx, hy, by omega⟩⟩⟩
  have g6 : (k + 1 < data.size.z ∧ m.data i j (k + 1) = kFluid) ↔
      k + 1 < data.size.z :=
    ⟨And.left, fun hp => ⟨hp, hm _ _ _ ⟨hx, hy, hp⟩⟩⟩
  simp only [laplacian, g1, g2, g3, g4, g5, g6]

/-- C6: for a scalar explicit diffusion step in which every sample is Fluid
(the two SDFs classify every in-bounds sample as Fluid), the sum of the
destination values over all samples equals the sum of the source values, in
exact arithmetic, for any diffusion coefficient and any time interval. -/
theorem uniform_fluid_sum_conserved (sg : ScalarGrid3) (c dt : ℚ)
    (dInit : Array3 ℚ) (b f : ScalarField3)
    (hb : ∀ i j k, inBounds sg.dataV.size i j k →
      isInsideSdf (b (sg.dataPosition i j k)) = false)
    (hf : ∀ i j k, inBounds sg.dataV.size i j k →
      isInsideSdf (f (sg.dataPosition i j k)) = true) :
    sumOver sg.dataV.size
        (fun i j k => (solveScalar sg c dt dInit b f).1.data i j k) =
      sumOver sg.dataV.size (fun i j k => sg.dataV.data i j k) := by
  set s := sg.dataV.data with hs
  set sz := sg.dataV.size with hsz
  set h := sg.gridSpacing with hh
  have hmAll : ∀ a b' c', inBounds sz a b' c' →
      (buildMarkers sg.resolution sg.dataPosition b f).data a b' c'
        = kFluid :=
    fun a b' c' h' => buildMarkers_all_fluid _ _ _ _ hb hf a b' c' h'
  have hpt : ∀ i j k, inBounds sz i j k →
      (solveScalar sg c dt dInit b f).1.data i j k =
        s i j k + c * dt *
          (((if i + 1 < sz.x then s (i + 1) j k - s i j k else 0) -
              (if 0 < i then s i j k - s (i - 1) j k else 0)) / (h.x * h.x) +
            ((if j + 1 < sz.y then s i (j + 1) k - s i j k else 0) -
              (if 0 < j then s i j k - s i (j - 1) k else 0)) / (h.y * h.y) +
            ((if k + 1 < sz.z then s i j (k + 1) - s i j k else 0) -
              (if 0 < k then s i j k - s i j (k - 1) else 0)) /
              (h.z * h.z)) := by
    intro i j k hin
    have hmF := hmAll i j k hin
    simp only [solveScalar]
    rw [if_pos hin, if_pos hmF,
      laplacian_fluid_everywhere sg.dataV _ _ i j k hin hmAll]
  have hstep : sumOver sz
      (fun i j k => (solveScalar sg c dt dInit b f).1.data i j k) =
      sumOver sz (fun i j k =>
        s i j k + c * dt *
          (((if i + 1 < sz.x then s (i + 1) j k - s i j k else 0) -
              (if 0 < i then s i j k - s (i - 1) j k else 0)) / (h.x * h.x) +
            ((if j + 1 < sz.y then s i (j + 1) k - s i j k else 0) -
              (if 0 < j then s i j k - s i (j - 1) k else 0)) / (h.y * h.y) +
            ((if k + 1 < sz.z then s i j (k + 1) - s i j k else 0) -
              (if 0 < k then s i j k - s i j (k - 1) else 0)) /
              (h.z * h.z))) := by
    unfold sumOver
    refine Finset.sum_congr rfl fun i hi => Finset.sum_congr rfl fun j hj =>
      Finset.sum_congr rfl fun k hk => ?_
    simp only [Finset.mem_range] at hi hj hk
    exact hpt i j k ⟨hi, hj, hk⟩
  have hX : sumOver sz (fun i j k =>
      ((if i + 1 < sz.x then s (i + 1) j k - s i j k else 0) -
        (if 0 < i then s i j k - s (i - 1) j k else 0)) / (h.x * h.x)) = 0 := by
    unfold sumOver
    rw [Finset.sum_comm]
    refine Finset.sum_eq_zero fun j _ => ?_
    rw [Finset.sum_comm]
    refine Finset.sum_eq_zero fun k _ => ?_
    exact sum_axis_cancel_div sz.x (fun i => s i j k) _
  have hY : sumOver sz (fun i j k =>
      ((if j + 1 < sz.y then s i (j + 1) k - s i j k else 0) -
        (if 0 < j then s i j k - s i (j - 1) k else 0)) / (h.y * h.y)) = 0 := by
    unfold sumOver
    refine Finset.sum_eq_zero fun i _ => ?_
    rw [Finset.sum_comm]
    refine Finset.sum_eq_zero fun k _ => ?_
    exact sum_axis_cancel_div sz.y (fun j => s i j k) _
  have hZ : sumOver sz (fun i j k =>
      ((if k + 1 < sz.z then s i j (k + 1) - s i j k else 0) -
        (if 0 < k then s i j k - s i j (k - 1) else 0)) / (h.z * h.z)) = 0 := by
    unfold sumOver
    refine Finset.sum_eq_zero fun i _ => Finset.sum_eq_zero fun j _ => ?_
    exact sum_axis_cancel_div sz.z (fun k => s i j k) _
  rw [hstep, sumOver_add, sumOver_smul, sumOver_add, sumOver_add, hX, hY, hZ]
  ring

/-- Witness for C6: the concrete 2×1×1 all-Fluid grid. -/
theorem uniform_fluid_sum_conserved_witness :
    (∀ i j k, inBounds exGridA.dataV.size i j k →
      isInsideSdf (sdfOutside (exGridA.dataPosition i j k)) = false) ∧
    (∀ i j k, inBounds exGridA.dataV.size i j k →
      isInsideSdf (sdfInside (exGridA.dataPosition i j k)) = true) ∧
    sumOver exGridA.dataV.size
        (fun i j k =>
          (solveScalar exGridA 1 1 exDestA sdfOutside
            sdfInside).1.data i j k) =
      sumOver exGridA.dataV.size (fun i j k => exGridA.dataV.data i j k) :=
  ⟨fun _ _ _ _ => rfl, fun _ _ _ _ => rfl,
    uniform_fluid_sum_conserved exGridA 1 1 exDestA sdfOutside sdfInside
      (fun _ _ _ _ => rfl) (fun _ _ _ _ => rfl)⟩

/-- C7: in a 1-D all-Fluid configuration (resolution N×1×1, unit spacing on
every axis) with `0 ≤ diffusionCoefficient`, `0 < dt` and
`diffusionCoefficient · dt ≤ 0.49` (just under the 0.5 explicit stability
bound), every output value of the scalar solve lies within any closed
interval `[lo, hi]` containing all input values.  The bound enters only as a
hypothesis — nothing in `solveScalar` enforces or clamps it. -/
theorem oneD_stable_step_bounded (sg : ScalarGrid3) (c dt : ℚ)
    (dInit : Array3 ℚ) (b f : ScalarField3) (N : Nat)
    (hsz : sg.dataV.size = ⟨N, 1, 1⟩)
    (hsp : sg.gridSpacing = ⟨1, 1, 1⟩)
    (hb : ∀ i j k, inBounds sg.dataV.size i j k →
      isInsideSdf (b (sg.dataPosition i j k)) = false)
    (hf : ∀ i j k, inBounds sg.dataV.size i j k →
      isInsideSdf (f (sg.dataPosition i j k)) = true)
    (hc : 0 ≤ c) (hdt : 0 < dt) (hstab : c * dt ≤ 49/100)
    (lo hi : ℚ)
    (hbound : ∀ i, i < N →
      lo ≤ sg.dataV.data i 0 0 ∧ sg.dataV.data i 0 0 ≤ hi)
    (i : Nat) (hiN : i < N) :
    lo ≤ (solveScalar sg c dt dInit b f).1.data i 0 0 ∧
      (solveScalar sg c dt dInit b f).1.data i 0 0 ≤ hi := by
  have hin : inBounds sg.dataV.size i 0 0 := by
    rw [hsz]; exact ⟨hiN, Nat.one_pos, Nat.one_pos⟩
  have hmAll : ∀ a b' c', inBounds sg.dataV.size a b' c' →
      (buildMarkers sg.resolution sg.dataPosition b f).data a b' c'
        = kFluid :=
    fun a b' c' h' => buildMarkers_all_fluid _ _ _ _ hb hf a b' c' h'
  have key : (solveScalar sg c dt dInit b f).1.data i 0 0 =
      sg.dataV.data i 0 0 + c * dt *
        ((if i + 1 < N then sg.dataV.data (i + 1) 0 0 - sg.dataV.data i 0 0
            else 0) -
          (if 0 < i then sg.dataV.data i 0 0 - sg.dataV.data (i - 1) 0 0
            else 0)) := by
    simp only [solveScalar]
    rw [if_pos hin, if_pos (hmAll i 0 0 hin),
      laplacian_fluid_everywhere sg.dataV _ _ i 0 0 hin hmAll, hsz, hsp]
    norm_num
  have hμ : 0 ≤ c * dt := mul_nonneg hc hdt.le
  rcases hbound i hiN with ⟨hli, hri⟩
  by_cases h1 : i + 1 < N <;> by_cases h2 : 0 < i
  · rw [key, if_pos h1, if_pos h2]
    rcases hbound (i + 1) h1 with ⟨hlp, hrp⟩
    rcases hbound (i - 1) (by omega) with ⟨hlm, hrm⟩
    have h2μ : (0:ℚ) ≤ 1 - 2 * (c * dt) := by linarith
    constructor
    · nlinarith [mul_nonneg hμ (sub_nonneg.2 hlp),
        mul_nonneg hμ (sub_nonneg.2 hlm),
        mul_nonneg h2μ (sub_nonneg.2 hli)]
    · nlinarith [mul_nonneg hμ (sub_nonneg.2 hrp),
        mul_nonneg hμ (sub_nonneg.2 hrm),
        mul_nonneg h2μ (sub_nonneg.2 hri)]
  · rw [key, if_pos h1, if_neg h2]
    rcases hbound (i + 1) h1 with ⟨hlp, hrp⟩
    have h1μ : (0:ℚ) ≤ 1 - c * dt := by linarith
    constructor
    · nlinarith [mul_nonneg hμ (sub_nonneg.2 hlp),
        mul_nonneg h1μ (sub_nonneg.2 hli)]
    · nlinarith [mul_nonneg hμ (sub_nonneg.2 hrp),
        mul_nonneg h1μ (sub_nonneg.2 hri)]
  · rw [key, if_neg h1, if_pos h2]
    rcases hbound (i - 1) (by omega) with ⟨hlm, hrm⟩
    have h1μ : (0:ℚ) ≤ 1 - c * dt := by linarith
    constructor
    · nlinarith [mul_nonneg hμ (sub_nonneg.2 hlm),
        mul_nonneg h1μ (sub_nonneg.2 hli)]
    · nlinarith [mul_nonneg hμ (sub_nonneg.2 hrm),
        mul_nonneg h1μ (sub_nonneg.2 hri)]
  · rw [key, if_neg h1, if_neg h2]
    constructor <;> nlinarith

/-- Witness for C7: a 2×1×1 grid with values 3 and 5,
`diffusionCoefficient = 1/10`, `dt = 49/10` — exactly the boundary scenario
of the spec — keeps sample 0 within `[3, 5]`. -/
theorem oneD_stable_step_bounded_witness :
    (0:ℚ) ≤ 1/10 ∧ (0:ℚ) < 49/10 ∧ (1/10 : ℚ) * (49/10) ≤ 49/100 ∧
    (3 ≤ (solveScalar exGridA (1/10) (49/10) exDestA sdfOutside
        sdfInside).1.data 0 0 0 ∧
      (solveScalar exGridA (1/10) (49/10) exDestA sdfOutside
        sdfInside).1.data 0 0 0 ≤ 5) :=
  ⟨by norm_num, by norm_num, by norm_num,
    oneD_stable_step_bounded exGridA (1/10) (49/10) exDestA sdfOutside
      sdfInside 2 rfl rfl (fun _ _ _ _ => rfl)
      (fun _ _ _ _ => rfl) (by norm_num) (by norm_num) (by norm_num)
      3 5
      (fun i hi => by
        interval_cases i <;> constructor <;> norm_num [exGridA])
      0 (by norm_num)⟩

/-- The marker-gated Laplacian of a field that is constant on the grid is
zero (every accumulated difference vanishes). -/
lemma laplacian_constant_zero (data : Array3 ℚ) (m : Array3 Nat)
    (h : Vector3D) (K : ℚ) (i j k : Nat) (hin : inBounds data.size i j k)
    (hconst : ∀ a b c, inBounds data.size a b c → data.data a b c = K) :
    laplacian data m h i j k = 0 := by
  obtain ⟨hx, hy, hz⟩ := hin
  have t1 : (if 0 < i ∧ m.data (i - 1) j k = kFluid then
      data.data i j k - data.data (i - 1) j k else 0) = 0 := by
    split_ifs with hg
    · rw [hconst i j k ⟨hx, hy, hz⟩,
        hconst (i - 1) j k ⟨by omega, hy, hz⟩, sub_self]
    · rfl
  have t2 : (if i + 1 < data.size.x ∧ m.data (i + 1) j k = kFluid then
      data.data (i + 1) j k - data.data i j k else 0) = 0 := by
    split_ifs with hg
    · rw [hconst i j k ⟨hx, hy, hz⟩,
        hconst (i + 1) j k ⟨hg.1, hy, hz⟩, sub_self]
    · rfl
  have t3 : (if 0 < j ∧ m.data i (j - 1) k = kFluid then
      data.data i j k - data.data i (j - 1) k else 0) = 0 := by
    split_ifs with hg
    · rw [hconst i j k ⟨hx, hy, hz⟩,
        hconst i (j - 1) k ⟨hx, by omega, hz⟩, sub_self]
    · rfl
  have t4 : (if j + 1 < data.size.y ∧ m.data i (j + 1) k = kFluid then
      data.data i (j + 1) k - data.data i j k else 0) = 0 := by
    split_ifs with hg
    · rw [hconst i j k ⟨hx, hy, hz⟩,
        hconst i (j + 1) k ⟨hx, hg.1, hz⟩, sub_self]
    · rfl
  have t5 : (if 0 < k ∧ m.data i j (k - 1) = kFluid then
      data.data i j k - data.data i j (k - 1) else 0) = 0 := by
    split_ifs with hg
    · rw [hconst i j k ⟨hx, hy, hz⟩,
        hconst i j (k - 1) ⟨hx, hy, by omega⟩, sub_self]
    · rfl
  have t6 : (if k + 1 < data.size.z ∧ m.data i j (k + 1) = kFluid then
      data.data i j (k + 1) - data.data i j k else 0) = 0 := by
    split_ifs with hg
    · rw [hconst i j k ⟨hx, hy, hz⟩,
        hconst i j (k + 1) ⟨hx, hy, hg.1⟩, sub_self]
    · rfl
  simp only [laplacian, t1, t2, t3, t4, t5, t6]
  norm_num

/-- The vector instantiation of the marker-gated Laplacian of a constant
field is the zero vector. -/
lemma laplacianV_constant_zero (data : Array3 Vector3D) (m : Array3 Nat)
    (h : Vector3D) (KV : Vector3D) (i j k : Nat)
    (hin : inBounds data.size i j k)
    (hconst : ∀ a b c, inBounds data.size a b c → data.data a b c = KV) :
    laplacianV data m h i j k = ⟨0, 0, 0⟩ := by
  obtain ⟨hx, hy, hz⟩ := hin
  have hsub : KV.sub KV = ⟨0, 0, 0⟩ := by simp [Vector3D.sub]
  have t1 : (if 0 < i ∧ m.data (i - 1) j k = kFluid then
      (data.data i j k).sub (data.data (i - 1) j k)
      else (⟨0, 0, 0⟩ : Vector3D)) = ⟨0, 0, 0⟩ := by
    split_ifs with hg
    · rw [hconst i j k ⟨hx, hy, hz⟩,
        hconst (i - 1) j k ⟨by omega, hy, hz⟩, hsub]
    · rfl
  have t2 : (if i + 1 < data.size.x ∧ m.data (i + 1) j k = kFluid then
      (data.data (i + 1) j k).sub (data.data i j k)
      else (⟨0, 0, 0⟩ : Vector3D)) = ⟨0, 0, 0⟩ := by
    split_ifs with hg
    · rw [hconst i j k ⟨hx, hy, hz⟩,
        hconst (i + 1) j k ⟨hg.1, hy, hz⟩, hsub]
    · rfl
  have t3 : (if 0 < j ∧ m.data i (j - 1) k = kFluid then
      (data.data i j k).sub (data.data i (j - 1) k)
      else (⟨0, 0, 0⟩ : Vector3D)) = ⟨0, 0, 0⟩ := by
    split_ifs with hg
    · rw [hconst i j k ⟨hx, hy, hz⟩,
        hconst i (j - 1) k ⟨hx, by omega, hz⟩, hsub]
    · rfl
  have t4 : (if j + 1 < data.size.y ∧ m.data i (j + 1) k = kFluid then
      (data.data i (j + 1) k).sub (data.data i j k)
      else (⟨0, 0, 0⟩ : Vector3D)) = ⟨0, 0, 0⟩ := by
    split_ifs with hg
    · rw [hconst i j k ⟨hx, hy, hz⟩,
        hconst i (j + 1) k ⟨hx, hg.1, hz⟩, hsub]
    · rfl
  have t5 : (if 0 < k ∧ m.data i j (k - 1) = kFluid then
      (data.data i j k).sub (data.data i j (k - 1))
      else (⟨0, 0, 0⟩ : Vector3D)) = ⟨0, 0, 0⟩ := by
    split_ifs with hg
    · rw [hconst i j k ⟨hx, hy, hz⟩,
        hconst i j (k - 1) ⟨hx, hy, by omega⟩, hsub]
    · rfl
  have t6 : (if k + 1 < data.size.z ∧ m.data i j (k + 1) = kFluid then
      (data.data i j (k + 1)).sub (data.data i j k)
      else (⟨0, 0, 0⟩ : Vector3D)) = ⟨0, 0, 0⟩ := by
    split_ifs with hg
    · rw [hconst i j k ⟨hx, hy, hz⟩,
        hconst i j (k + 1) ⟨hx, hy, hg.1⟩, hsub]
    · rfl
  simp only [laplacianV, t1, t2, t3, t4, t5, t6]
  simp [Vector3D.sub, Vector3D.divQ, Vector3D.add]

/-- Constant-5 face-centered grid at resolution 1×1×1. -/
def exFaceC : FaceCenteredGrid3 :=
  ⟨⟨1, 1, 1⟩, ⟨0, 0, 0⟩, ⟨1, 1, 1⟩,
    ⟨⟨2, 1, 1⟩, fun _ _ _ => 5⟩,
    ⟨⟨1, 2, 1⟩, fun _ _ _ => 5⟩,
    ⟨⟨1, 1, 2⟩, fun _ _ _ => 5⟩⟩

/-- Zero u-destination buffer for `exFaceC`. -/
def exFaceCU : Array3 ℚ := ⟨⟨2, 1, 1⟩, fun _ _ _ => 0⟩

/-- Zero v-destination buffer for `exFaceC`. -/
def exFaceCV : Array3 ℚ := ⟨⟨1, 2, 1⟩, fun _ _ _ => 0⟩

/-- Zero w-destination buffer for `exFaceC`. -/
def exFaceCW : Array3 ℚ := ⟨⟨1, 1, 2⟩, fun _ _ _ => 0⟩

/-- Counterexample to C8 as stated: a spatially constant (value 5)
face-centered source diffused with everything inside the boundary SDF leaves
the destination's prior value 0 in place at u face (0,0,0): the destination
does not equal the constant source there. -/
theorem constant_field_counterexample :
    exFaceC.uData.data 0 0 0 = 5 ∧
    (solveFace exFaceC 1 1 exFaceCU exFaceCV exFaceCW sdfInside
        sdfOutside).1.data 0 0 0 = 0 :=
  ⟨by decide, by decide⟩

/-- C8 (amended): a spatially constant source is reproduced by every write
the solve performs: the scalar and collocated overloads write the constant at
every sample for any SDFs, coefficient and time interval; the face-centered
overload writes the constant at every u or v face not inside the boundary
SDF, while faces inside the boundary SDF retain the destination's prior
value (counterexample above). -/
theorem constant_field_fixed_point (K : ℚ) (KV : Vector3D) (c dt : ℚ)
    (b f : ScalarField3) (i j k : Nat) :
    (∀ (sg : ScalarGrid3) (dInit : Array3 ℚ),
      (∀ a b' c', inBounds sg.dataV.size a b' c' →
        sg.dataV.data a b' c' = K) →
      inBounds sg.dataV.size i j k →
      (solveScalar sg c dt dInit b f).1.data i j k = K) ∧
    (∀ (cg : CollocatedVectorGrid3) (dInit : Array3 Vector3D),
      (∀ a b' c', inBounds cg.dataV.size a b' c' →
        cg.dataV.data a b' c' = KV) →
      inBounds cg.dataV.size i j k →
      (solveCollocated cg c dt dInit b f).1.data i j k = KV) ∧
    (∀ (g : FaceCenteredGrid3) (uInit vInit wInit : Array3 ℚ),
      g.uData.size = uSize g →
      (∀ a b' c', inBounds g.uData.size a b' c' →
        g.uData.data a b' c' = K) →
      inBounds (uSize g) i j k →
      isInsideSdf (b (uPosition g i j k)) = false →
      (solveFace g c dt uInit vInit wInit b f).1.data i j k = K) ∧
    (∀ (g : FaceCenteredGrid3) (uInit vInit wInit : Array3 ℚ),
      g.vData.size = vSize g →
      (∀ a b' c', inBounds g.vData.size a b' c' →
        g.vData.data a b' c' = K) →
      inBounds (vSize g) i j k →
      isInsideSdf (b (vPosition g i j k)) = false →
      (solveFace g c dt uInit vInit wInit b f).2.1.data i j k = K) := by
  refine ⟨?_, ?_, ?_, ?_⟩
  · intro sg dInit hconst hin
    simp only [solveScalar]
    rw [if_pos hin]
    split_ifs with hm
    · rw [laplacian_constant_zero sg.dataV _ _ K i j k hin hconst,
        hconst i j k hin, mul_zero, add_zero]
    · exact hconst i j k hin
  · intro cg dInit hconst hin
    simp only [solveCollocated]
    rw [if_pos hin]
    split_ifs with hm
    · rw [laplacianV_constant_zero cg.dataV _ _ KV i j k hin hconst,
        hconst i j k hin]
      simp [Vector3D.add, Vector3D.smulQ]
    · exact hconst i j k hin
  · intro g uInit vInit wInit husz hconst hin hsdf
    have hin' : inBounds g.uData.size i j k := by rw [husz]; exact hin
    simp only [solveFace, solveFaceU]
    rw [if_pos ⟨hin, hsdf⟩, laplacian3_eq_laplacian_allFluid,
      laplacian_constant_zero g.uData _ _ K i j k hin' hconst,
      hconst i j k hin', mul_zero, add_zero]
  · intro g uInit vInit wInit hvsz hconst hin hsdf
    have hin' : inBounds g.vData.size i j k := by rw [hvsz]; exact hin
    simp only [solveFace, solveFaceV]
    rw [if_pos ⟨hin, hsdf⟩, laplacian3_eq_laplacian_allFluid,
      laplacian_constant_zero g.vData _ _ K i j k hin' hconst,
      hconst i j k hin', mul_zero, add_zero]

/-- Constant-5 scalar grid (2×1×1) for the C8 witness. -/
def exGridK : ScalarGrid3 :=
  ⟨⟨⟨2, 1, 1⟩, fun _ _ _ => 5⟩, ⟨1, 1, 1⟩, fun _ _ _ => ⟨0, 0, 0⟩⟩

/-- Witness for C8 (amended): the scalar overload on the constant-5 grid and
the face-centered u pass on the constant-5 face grid with nothing inside the
boundary SDF both write back 5. -/
theorem constant_field_fixed_point_witness :
    ((solveScalar exGridK 1 1 exDestA sdfOutside sdfInside).1.data 0 0 0
      = 5) ∧
    ((solveFace exFaceC 1 1 exFaceCU exFaceCV exFaceCW sdfOutside
        sdfInside).1.data 0 0 0 = 5) :=
  ⟨(constant_field_fixed_point 5 ⟨0, 0, 0⟩ 1 1 sdfOutside sdfInside
      0 0 0).1 exGridK exDestA (fun _ _ _ _ => rfl) (by decide),
    (constant_field_fixed_point 5 ⟨0, 0, 0⟩ 1 1 sdfOutside sdfInside
      0 0 0).2.2.1 exFaceC exFaceCU exFaceCV exFaceCW rfl
      (fun _ _ _ _ => rfl) (by decide) rfl⟩

/-- C9: no overload of `solve` mutates its inputs: as transformers on the
memory a call can reach, all three overloads leave every source array
unchanged — only the destination arrays and the solver's private marker
buffer are (re)assigned. -/
theorem solve_preserves_inputs :
    (∀ (gs : Vector3D) (pos : Nat → Nat → Nat → Vector3D) (c dt : ℚ)
        (b f : ScalarField3) (m : ScalarSolveMem),
      (solveScalarMem gs pos c dt b f m).sourceData = m.sourceData) ∧
    (∀ (gs : Vector3D) (pos : Nat → Nat → Nat → Vector3D) (c dt : ℚ)
        (b f : ScalarField3) (m : CollocatedSolveMem),
      (solveCollocatedMem gs pos c dt b f m).sourceData = m.sourceData) ∧
    (∀ (res : Vector3UZ) (o gs : Vector3D) (c dt : ℚ) (b f : ScalarField3)
        (m : FaceSolveMem),
      (solveFaceMem res o gs c dt b f m).srcU = m.srcU ∧
      (solveFaceMem res o gs c dt b f m).srcV = m.srcV ∧
      (solveFaceMem res o gs c dt b f m).srcW = m.srcW) :=
  ⟨fun _ _ _ _ _ _ _ => rfl, fun _ _ _ _ _ _ _ => rfl,
    fun _ _ _ _ _ _ _ _ => ⟨rfl, rfl, rfl⟩⟩

/-- Face-centered grid at resolution 1×1×1 for the bounds-defect run. -/
def exFaceD : FaceCenteredGrid3 :=
  ⟨⟨1, 1, 1⟩, ⟨0, 0, 0⟩, ⟨1, 1, 1⟩,
    ⟨⟨2, 1, 1⟩, fun _ _ _ => 0⟩,
    ⟨⟨1, 2, 1⟩, fun _ _ _ => 0⟩,
    ⟨⟨1, 1, 2⟩, fun _ _ _ => 0⟩⟩

/-- Zero w-destination buffer for `exFaceD`. -/
def exFaceDW : Array3 ℚ := ⟨⟨1, 1, 2⟩, fun _ _ _ => 0⟩

/-- C10 (the defect): the w pass iterates the u index set
(`parallelForEachUIndex` in the source, where the u and v passes use their
own index sets).  Already at resolution 1×1×1 it visits index (1,0,0), which
lies outside the w views (size 1×1×2 with x-extent 1), so the bounds-checked
run of the pass hits an out-of-bounds access and returns `none`: the
out-of-bounds branch is reachable, against the claim. -/
theorem w_pass_oob_defect :
    (1, 0, 0) ∈ indexList (uSize exFaceD) ∧
    exFaceD.wData.get? 1 0 0 = none ∧
    solveFaceWChecked exFaceD 1 1 exFaceDW sdfOutside = none :=
  ⟨by decide, by decide, rfl⟩

end FluidSpec
